import Mathlib

/-!
Shallow embedding of the tascade Task lifecycle service
(`task.services` file of the repository) and proofs about its behaviour.

The service talks to a remote store through the xata client; the store is
embedded as an explicit `Store` value threaded through each operation, with
the client calls (`filter(...).getFirst()`, `getAll()`, `create`, `update`,
`delete`) embedded as pure functions on that value.  The notification
dispatcher (`createNotification`, an external collaborator) is passed in as
a function argument, and each mutator additionally returns the list of
dispatch calls it made, so that theorems can speak about which notifications
were sent.  JavaScript date conversion (`new Date(s).toISOString()`) is not
code of this repository; it enters as a function argument
`dateToISO : String → Option String`, where `none` means the conversion
throws (invalid date), which the service's catch-all turns into a 500
envelope.
-/

namespace Tascade

/-- A persisted Task record.  `assignedToId` is a nullable link; after a plain
`filter(...).getFirst()` the link carries the referenced user's `xata_id`,
which is all the service reads from it. -/
structure Task where
  xata_id : String
  description : String
  status : String
  dueDate : String
  projectId : String
  assignedToId : Option String
deriving Repr, DecidableEq

/-- The `NewTask` input shape of `createTask`. -/
structure NewTask where
  description : String
  status : String
  dueDate : String
  projectId : String
  assignedToId : Option String
deriving Repr, DecidableEq

/-- The `UpdateTask` body of `updateTask` and `patch`: a partial record;
`none` means the field is absent from the body. -/
structure UpdateTask where
  description : Option String
  status : Option String
  dueDate : Option String
  projectId : Option String
  assignedToId : Option (Option String)
deriving Repr, DecidableEq

/-- The `details` field of a result envelope: a string on error paths, the
affected record or record list on success paths, `null` when a record read
came back empty. -/
inductive Details where
  | text : String → Details
  | task : Task → Details
  | tasks : List Task → Details
  | null : Details
deriving Repr, DecidableEq

/-- The uniform result envelope `{code, message, details}` every service
operation returns. -/
structure Envelope where
  code : Nat
  message : String
  details : Details
deriving Repr, DecidableEq

/-- The remote store: the Project table (only ids are consulted by this
service), the Task table, and a counter from which the store assigns fresh
record ids. -/
structure Store where
  projects : List String
  tasks : List Task
  freshId : Nat
deriving Repr, DecidableEq

/-- `xata.db.Task.filter({ xata_id: id }).getFirst()`. -/
def findTaskById (st : Store) (id : String) : Option Task :=
  st.tasks.find? (fun t => t.xata_id == id)

/-- `xata.db.Task.filter({ description: d }).getFirst()`. -/
def findTaskByDescription (st : Store) (d : String) : Option Task :=
  st.tasks.find? (fun t => t.description == d)

/-- The record id the store assigns to the next created record. -/
def freshTaskId (n : Nat) : String :=
  "rec" ++ toString n

/-- `xata.db.Task.update(id, body)`: absent when the id does not resolve,
otherwise the record with the body's present fields overwritten verbatim. -/
def applyUpdate (t : Task) (body : UpdateTask) : Task :=
  { xata_id := t.xata_id
    description := body.description.getD t.description
    status := body.status.getD t.status
    dueDate := body.dueDate.getD t.dueDate
    projectId := body.projectId.getD t.projectId
    assignedToId := body.assignedToId.getD t.assignedToId }

/-- `xata.db.Task.update(id, body)` as a store transition, returning the
updated record (or `none`) together with the new store. -/
def taskUpdate (st : Store) (id : String) (body : UpdateTask) :
    Option Task × Store :=
  match findTaskById st id with
  | none => (none, st)
  | some t =>
      let t2 := applyUpdate t body
      (some t2,
       { projects := st.projects
         tasks := st.tasks.map (fun u => if u.xata_id == id then t2 else u)
         freshId := st.freshId })

/-- `xata.db.Task.delete(id)` as a store transition, returning the deleted
record (or `none`) together with the new store. -/
def taskDelete (st : Store) (id : String) : Option Task × Store :=
  match findTaskById st id with
  | none => (none, st)
  | some t =>
      (some t,
       { projects := st.projects
         tasks := st.tasks.filter (fun u => !(u.xata_id == id))
         freshId := st.freshId })

/-- JavaScript `toLowerCase()`, embedded character-wise (structurally
recursive, so closed instances evaluate in the kernel). -/
def toLowerCase (s : String) : String :=
  String.mk (s.data.map Char.toLower)

/-- Modelled from the spec: `isValidStatus` lives in `types/task.types`,
which is not among the provided source files; the spec fixes the status
enum as exactly the two values `in-progress` and `completed`. -/
def isValidStatus (s : String) : Bool :=
  s == "in-progress" || s == "completed"

/-- Case-insensitive string equality, as the spec's "equal case-insensitively". -/
def eqCaseInsensitive (a b : String) : Bool :=
  toLowerCase a == toLowerCase b

/-- A notification dispatcher: `createNotification(message, recipientId)`
returns an envelope.  The transport is an external collaborator, so the
service functions take the dispatcher as an argument. -/
def Dispatcher : Type :=
  String → String → Envelope

/-- A record of one dispatch call: the message and the recipient id. -/
def Dispatched : Type :=
  String × String

/-- The message `'<description>' updated!` built by `updateTask` from the
updated record (the source interpolates `result.description`). -/
def updatedMessage (task : Task) (body : UpdateTask) : String :=
  "\x27" ++ (applyUpdate task body).description ++ "\x27 updated!"

/-- The message `'<description>' deleted!` built by `deleteTaskFromProject`
from the deleted record. -/
def deletedMessage (task : Task) : String :=
  "\x27" ++ task.description ++ "\x27 deleted!"

/-- The one-field body `{ status }` that `updateTaskStatus` persists. -/
def statusOnlyBody (status : String) : UpdateTask :=
  { description := none
    status := some status
    dueDate := none
    projectId := none
    assignedToId := none }

/-- Embedding of `createTask`.  Faithful to the source, including its bug:
the Project query on the first line of the `try` block is built but not
awaited, so `project` holds a Promise object; a Promise is truthy in
JavaScript, hence `if (!project)` is never taken and the 404 branch is
unreachable.  The embedding keeps the branch, guarded by the constant
truthiness of the un-awaited promise.  `dateToISO` stands for
`new Date(dueDate).toISOString()`; `none` means the conversion throws,
which the `catch` turns into the 500 envelope with no record persisted. -/
def createTask (dateToISO : String → Option String) (st : Store)
    (task : NewTask) : Envelope × Store :=
  let projectPromiseIsTruthy := true
  if !projectPromiseIsTruthy then
    ({ code := 404
       message := "Error creating Task"
       details := Details.text
         ("Project with id " ++ task.projectId ++ " does not exist!") }, st)
  else if !isValidStatus task.status then
    ({ code := 400
       message := "Invalid status!"
       details := Details.text
         "status must be \x27in-progress\x27 or \x27completed\x27!" }, st)
  else
    match findTaskByDescription st (toLowerCase task.description) with
    | some _ =>
        ({ code := 409
           message := "Error creating Task"
           details := Details.text "Tasks already exists." }, st)
    | none =>
        match dateToISO task.dueDate with
        | none =>
            ({ code := 500
               message := "Internal server error"
               details := Details.text "RangeError: Invalid time value" }, st)
        | some iso =>
            let created : Task :=
              { xata_id := freshTaskId st.freshId
                description := (toLowerCase task.description)
                status := toLowerCase task.status
                dueDate := iso
                projectId := task.projectId
                assignedToId := task.assignedToId }
            ({ code := 201
               message := "Task created successfully"
               details := Details.task created },
             { projects := st.projects
               tasks := st.tasks ++ [created]
               freshId := st.freshId + 1 })

/-- `fetchTaskByProjectId`: all tasks of a project, joined with Project and
User (joins resolve links and do not change which records match). -/
def fetchTaskByProjectId (st : Store) (projectId : String) : Envelope :=
  let tasks := st.tasks.filter (fun t => t.projectId == projectId)
  if tasks.length == 0 then
    { code := 404
      message := "Tasks not found!"
      details := Details.text
        ("No tasks found for project with id " ++ projectId ++ "!") }
  else
    { code := 200
      message := "Tasks found!"
      details := Details.tasks tasks }

/-- `fetchTaskByid`: one task by record id. -/
def fetchTaskByid (st : Store) (id : String) : Envelope :=
  match findTaskById st id with
  | none =>
      { code := 404
        message := "task not found!"
        details := Details.text ("task with id " ++ id ++ " not found!") }
  | some t =>
      { code := 200
        message := "task found!"
        details := Details.task t }

/-- `fetchTaskByUserId`: all tasks whose `assignedToId` link equals the given
user id (tasks with a null link never match). -/
def fetchTaskByUserId (st : Store) (userId : String) : Envelope :=
  let tasks := st.tasks.filter (fun t => t.assignedToId == some userId)
  { code := 200
    message := "Tasks found!"
    details := Details.tasks tasks }

/-- The guard `if (body.status && !isValidStatus(body.status))` of
`updateTask`, with JavaScript truthiness: an absent field and the empty
string are both falsy, so only a present, non-empty, invalid status trips
the guard. -/
def statusGuardFails (body : UpdateTask) : Bool :=
  match body.status with
  | none => false
  | some s => (!(s == "")) && (!(isValidStatus s))

/-- Embedding of `updateTask`.  Order of the source: existence check
(400 on a missing task), status guard, store update, then — if the
pre-update record's `assignedToId` was non-null — a synchronous dispatch of
`'<description>' updated!` (the updated record's description) to that user;
a dispatch result with code other than 201 becomes the envelope of the whole
call, with the store mutation already committed. -/
def updateTask (notify : Dispatcher) (st : Store) (taskId : String)
    (body : UpdateTask) : Envelope × Store × List Dispatched :=
  match findTaskById st taskId with
  | none =>
      ({ code := 400
         message := "Error updating task!"
         details := Details.text
           ("Task with id " ++ taskId ++ " does not exist.") }, st, [])
  | some task =>
      if statusGuardFails body then
        ({ code := 400
           message := "Error updating task"
           details := Details.text
             "status must be \x27in-progress\x27 or \x27completed\x27!" },
         st, [])
      else
        match taskUpdate st taskId body with
        | (none, st2) =>
            ({ code := 400
               message := "Error updating task!"
               details := Details.text "Task was not updated!" }, st2, [])
        | (some result, st2) =>
            let notificationMessage :=
              "\x27" ++ result.description ++ "\x27 updated!"
            match task.assignedToId with
            | some assignedToId =>
                let notificationResult :=
                  notify notificationMessage assignedToId
                if notificationResult.code != 201 then
                  ({ code := notificationResult.code
                     message := notificationResult.message
                     details := notificationResult.details },
                   st2, [(notificationMessage, assignedToId)])
                else
                  ({ code := 200
                     message := "Task updated successfully"
                     details := Details.task result },
                   st2, [(notificationMessage, assignedToId)])
            | none =>
                ({ code := 200
                   message := "Task updated successfully"
                   details := Details.task result }, st2, [])

/-- Embedding of `patch`: same not-found policy as `updateTask` (400), then
`task.update(body)` followed by a re-read of the record with joined fields;
no status guard and no notification dispatch. -/
def patch (st : Store) (taskId : String) (body : UpdateTask) :
    Envelope × Store :=
  match findTaskById st taskId with
  | none =>
      ({ code := 400
         message := "Error updating task!"
         details := Details.text
           ("Task with id " ++ taskId ++ " does not exist.") }, st)
  | some _ =>
      let upd := taskUpdate st taskId body
      match upd.1 with
      | some result =>
          ({ code := 200
             message := "Task updated successfully"
             details := Details.task result }, upd.2)
      | none =>
          ({ code := 200
             message := "Task updated successfully"
             details := Details.null }, upd.2)

/-- Embedding of `deleteTaskFromProject`: 404 on a missing task, hard delete,
then — if the deleted record's `assignedToId` was non-null — a dispatch of
`'<description>' deleted!` to that user; a dispatch result with code other
than 201 becomes the envelope of the whole call, with the record already
removed from the store. -/
def deleteTaskFromProject (notify : Dispatcher) (st : Store)
    (taskId : String) : Envelope × Store × List Dispatched :=
  match findTaskById st taskId with
  | none =>
      ({ code := 404
         message := "Error deleting task"
         details := Details.text
           ("Task with id " ++ taskId ++ " does not exist!") }, st, [])
  | some task =>
      match taskDelete st taskId with
      | (none, st2) =>
          ({ code := 400
             message := "Error updating task!"
             details := Details.text "Task was not updated!" }, st2, [])
      | (some result, st2) =>
          let notificationMessage :=
            "\x27" ++ result.description ++ "\x27 deleted!"
          match task.assignedToId with
          | some assignedToId =>
              let notificationResult :=
                notify notificationMessage assignedToId
              if notificationResult.code != 201 then
                ({ code := notificationResult.code
                   message := notificationResult.message
                   details := notificationResult.details },
                 st2, [(notificationMessage, assignedToId)])
              else
                ({ code := 200
                   message := "Task deleted successfully"
                   details := Details.task result },
                 st2, [(notificationMessage, assignedToId)])
          | none =>
              ({ code := 200
                 message := "Task deleted successfully"
                 details := Details.task result }, st2, [])

/-- Embedding of `updateTaskStatus`: validates the status first, then checks
existence (404), then persists `{ status }` alone; never dispatches a
notification (the dispatch list is always empty). -/
def updateTaskStatus (st : Store) (taskId : String) (status : String) :
    Envelope × Store × List Dispatched :=
  if !isValidStatus status then
    ({ code := 400
       message := "Invalid status!"
       details := Details.text
         "status must be \x27in-progress\x27 or \x27completed\x27!" }, st, [])
  else
    match findTaskById st taskId with
    | none =>
        ({ code := 404
           message := "Error updating task"
           details := Details.text
             ("Task with id " ++ taskId ++ " does not exist!") }, st, [])
    | some _ =>
        let upd := taskUpdate st taskId (statusOnlyBody status)
        match upd.1 with
        | some result =>
            ({ code := 200
               message := "Task status updated successfully"
               details := Details.task result }, upd.2, [])
        | none =>
            ({ code := 200
               message := "Task status updated successfully"
               details := Details.null }, upd.2, [])

/-! Concrete stores, inputs and collaborators used to evaluate the service
on closed instances. -/

/-- A date conversion that succeeds on every input with a fixed canonical
instant (the behaviour of `new Date` on any parsable string). -/
def isoFixed : String → Option String :=
  fun _ => some "2023-12-31T00:00:00.000Z"

/-- A date conversion that fails on every input (the behaviour of
`toISOString` on an invalid date: it throws). -/
def dateInvalid : String → Option String :=
  fun _ => none

/-- A dispatcher whose calls always succeed with code 201. -/
def notifyOk : Dispatcher :=
  fun _ _ =>
    { code := 201
      message := "Notification created successfully"
      details := Details.null }

/-- A dispatcher whose calls always fail with code 500. -/
def notifyDown : Dispatcher :=
  fun _ _ =>
    { code := 500
      message := "Internal server error"
      details := Details.text "dispatch transport down" }

/-- A store with no projects and no tasks. -/
def emptyStore : Store :=
  { projects := [], tasks := [], freshId := 0 }

/-- A persisted task with a lowercase description and no assignee. -/
def taskReport : Task :=
  { xata_id := "rec0"
    description := "report"
    status := "in-progress"
    dueDate := "2023-12-31T00:00:00.000Z"
    projectId := "p1"
    assignedToId := none }

/-- A persisted task assigned to user `u1`. -/
def taskAssigned : Task :=
  { xata_id := "t1"
    description := "write tests"
    status := "in-progress"
    dueDate := "2023-12-31T00:00:00.000Z"
    projectId := "p1"
    assignedToId := some "u1" }

/-- A store holding one project and the unassigned task. -/
def storeOne : Store :=
  { projects := ["p1"], tasks := [taskReport], freshId := 1 }

/-- A store holding one project and the assigned task. -/
def storeAssigned : Store :=
  { projects := ["p1"], tasks := [taskAssigned], freshId := 2 }

/-- A NewTask whose `projectId` resolves to no project of `emptyStore`. -/
def missingProjectInput : NewTask :=
  { description := "complete the report"
    status := "completed"
    dueDate := "2023-12-31"
    projectId := "project123"
    assignedToId := some "user456" }

/-- A NewTask duplicating `taskReport`'s description case-insensitively,
with an invalid status. -/
def dupBadStatusInput : NewTask :=
  { description := "REPORT"
    status := "done"
    dueDate := "2023-12-31"
    projectId := "p1"
    assignedToId := none }

/-- A NewTask duplicating `taskReport`'s description case-insensitively,
with a valid status. -/
def dupValidInput : NewTask :=
  { description := "REPORT"
    status := "completed"
    dueDate := "2023-12-31"
    projectId := "p1"
    assignedToId := none }

/-- A well-formed NewTask with a fresh description and mixed case. -/
def freshInput : NewTask :=
  { description := "New Feature"
    status := "in-progress"
    dueDate := "2023-12-31"
    projectId := "p1"
    assignedToId := some "u1" }

/-- A NewTask that passes every check but whose dueDate does not parse. -/
def badDateInput : NewTask :=
  { description := "new feature"
    status := "in-progress"
    dueDate := "not-a-date"
    projectId := "p1"
    assignedToId := none }

/-- An update body whose status is present, non-empty and invalid. -/
def bodyBadStatus : UpdateTask :=
  { description := none
    status := some "done"
    dueDate := none
    projectId := none
    assignedToId := none }

/-- An empty update body. -/
def bodyEmpty : UpdateTask :=
  { description := none
    status := none
    dueDate := none
    projectId := none
    assignedToId := none }

/-- An update body supplying a mixed-case description and an unnormalized
dueDate string. -/
def bodyMixed : UpdateTask :=
  { description := some "Mixed CASE Description"
    status := none
    dueDate := some "tomorrow"
    projectId := none
    assignedToId := none }

/-! Helper lemmas about the embedded store operations. -/

theorem applyUpdate_xata_id (t : Task) (body : UpdateTask) :
    (applyUpdate t body).xata_id = t.xata_id := rfl

theorem find?_prop {pred : Task → Bool} {l : List Task} {t : Task}
    (h : l.find? pred = some t) : pred t = true :=
  List.find?_some h

theorem find?_map_replace (l : List Task) (id : String) (t2 : Task)
    (h2 : (t2.xata_id == id) = true) (t : Task)
    (h : l.find? (fun u => u.xata_id == id) = some t) :
    (l.map (fun u => if u.xata_id == id then t2 else u)).find?
      (fun u => u.xata_id == id) = some t2 := by
  induction l with
  | nil => simp at h
  | cons a l ih =>
      rw [List.map_cons]
      by_cases ha : (a.xata_id == id) = true
      · rw [if_pos ha, List.find?_cons, h2]
      · have ha2 : (a.xata_id == id) = false := by
          cases hb : (a.xata_id == id) with
          | true => exact absurd hb ha
          | false => rfl
        rw [if_neg ha]
        rw [List.find?_cons] at h
        simp only [ha2] at h
        simp only [List.find?_cons, ha2]
        exact ih h

theorem find?_filter_ne (l : List Task) (id : String) :
    (l.filter (fun u => !(u.xata_id == id))).find?
      (fun u => u.xata_id == id) = none := by
  rw [List.find?_eq_none]
  intro a ha
  have h2 := (List.mem_filter.mp ha).2
  simp at h2 ⊢
  exact h2

theorem taskUpdate_found (st : Store) (id : String) (body : UpdateTask)
    (t : Task) (h : findTaskById st id = some t) :
    taskUpdate st id body =
      (some (applyUpdate t body),
       { projects := st.projects
         tasks := st.tasks.map
           (fun u => if u.xata_id == id then applyUpdate t body else u)
         freshId := st.freshId }) := by
  simp [taskUpdate, h]

theorem findTaskById_some_beq (st : Store) (id : String) (t : Task)
    (h : findTaskById st id = some t) : (t.xata_id == id) = true := by
  have h2 : st.tasks.find? (fun u => u.xata_id == id) = some t := h
  exact find?_prop h2

theorem findTaskById_after_update (st : Store) (id : String)
    (body : UpdateTask) (t : Task) (h : findTaskById st id = some t) :
    findTaskById (taskUpdate st id body).2 id = some (applyUpdate t body) := by
  rw [taskUpdate_found st id body t h]
  have hid : ((applyUpdate t body).xata_id == id) = true := by
    rw [applyUpdate_xata_id]
    exact findTaskById_some_beq st id t h
  exact find?_map_replace st.tasks id (applyUpdate t body) hid t h

theorem taskDelete_found (st : Store) (id : String) (t : Task)
    (h : findTaskById st id = some t) :
    taskDelete st id =
      (some t,
       { projects := st.projects
         tasks := st.tasks.filter (fun u => !(u.xata_id == id))
         freshId := st.freshId }) := by
  simp [taskDelete, h]

theorem findTaskById_after_delete (st : Store) (id : String) :
    findTaskById (taskDelete st id).2 id = none := by
  cases h : findTaskById st id with
  | none => simp [taskDelete, h]
  | some t =>
      rw [taskDelete_found st id t h]
      exact find?_filter_ne st.tasks id

/-! Claim theorems. -/

/-- C1: the claim says `createTask` returns a 404 envelope whenever the
input's projectId resolves to no existing Project, which is what the
source's own dead branch and the documentation intend.  The Project query
is built without being awaited, so the truthiness test sees a Promise
object and the 404 branch is unreachable: on a store with no projects at
all, a well-formed input is nevertheless created, with code 201 and the
task persisted. -/
theorem C1_missing_project_check_unreachable :
    (createTask isoFixed emptyStore missingProjectInput).1.code = 201 ∧
    (createTask isoFixed emptyStore missingProjectInput).1.code ≠ 404 ∧
    (createTask isoFixed emptyStore missingProjectInput).2.tasks.length = 1 := by
  refine ⟨rfl, by decide, rfl⟩

/-- C7: for a taskId that resolves to no existing Task, both `updateTask`
and `patch` answer with a 400 envelope (the InvalidArgument shape), not a
404, whatever the body and the dispatcher. -/
theorem C7_not_found_is_400 (notify : Dispatcher) (st : Store)
    (taskId : String) (body : UpdateTask)
    (h : findTaskById st taskId = none) :
    (updateTask notify st taskId body).1.code = 400 ∧
    (patch st taskId body).1.code = 400 := by
  constructor
  · simp [updateTask, h]
  · simp [patch, h]

theorem C7_not_found_is_400_witness :
    findTaskById emptyStore "missing-id" = none ∧
    (updateTask notifyOk emptyStore "missing-id" bodyEmpty).1.code = 400 ∧
    (patch emptyStore "missing-id" bodyEmpty).1.code = 400 := by
  refine ⟨rfl, ?_, ?_⟩
  · exact (C7_not_found_is_400 notifyOk emptyStore "missing-id" bodyEmpty rfl).1
  · exact (C7_not_found_is_400 notifyOk emptyStore "missing-id" bodyEmpty rfl).2

/-- C8: the asymmetric empty-result policy of the read operations: an empty
result set makes `fetchTaskByProjectId` and `fetchTaskByid` answer 404,
while `fetchTaskByUserId` answers 200 carrying the empty collection. -/
theorem C8_empty_result_policy (st : Store) (pid id uid : String) :
    (st.tasks.filter (fun t => t.projectId == pid) = [] →
      (fetchTaskByProjectId st pid).code = 404) ∧
    (findTaskById st id = none → (fetchTaskByid st id).code = 404) ∧
    (st.tasks.filter (fun t => t.assignedToId == some uid) = [] →
      (fetchTaskByUserId st uid).code = 200 ∧
      (fetchTaskByUserId st uid).details = Details.tasks []) := by
  refine ⟨?_, ?_, ?_⟩
  · intro h
    simp [fetchTaskByProjectId, h]
  · intro h
    simp [fetchTaskByid, h]
  · intro h
    simp [fetchTaskByUserId, h]

theorem C8_empty_result_policy_witness :
    (fetchTaskByProjectId emptyStore "p9").code = 404 ∧
    (fetchTaskByid emptyStore "t9").code = 404 ∧
    (fetchTaskByUserId emptyStore "u9").code = 200 ∧
    (fetchTaskByUserId emptyStore "u9").details = Details.tasks [] := by
  have h := C8_empty_result_policy emptyStore "p9" "t9" "u9"
  exact ⟨h.1 rfl, h.2.1 rfl, (h.2.2 rfl).1, (h.2.2 rfl).2⟩

/-- C9: when the dueDate string does not convert to a valid date (the
conversion throws) while the status is valid and the lowercased description
matches no stored task, `createTask` answers the catch-all 500 envelope and
leaves the store untouched: no Task is persisted. -/
theorem C9_unparsable_dueDate_500 (dateToISO : String → Option String)
    (st : Store) (nt : NewTask)
    (hs : isValidStatus nt.status = true)
    (hd : findTaskByDescription st (toLowerCase nt.description) = none)
    (hdate : dateToISO nt.dueDate = none) :
    (createTask dateToISO st nt).1.code = 500 ∧
    (createTask dateToISO st nt).2 = st := by
  constructor
  · simp [createTask, hs, hd, hdate]
  · simp [createTask, hs, hd, hdate]

theorem C9_unparsable_dueDate_500_witness :
    isValidStatus badDateInput.status = true ∧
    findTaskByDescription storeOne (toLowerCase badDateInput.description) = none ∧
    dateInvalid badDateInput.dueDate = none ∧
    ((createTask dateInvalid storeOne badDateInput).1.code = 500 ∧
      (createTask dateInvalid storeOne badDateInput).2 = storeOne) := by
  refine ⟨by decide, by decide, rfl, ?_⟩
  exact C9_unparsable_dueDate_500 dateInvalid storeOne badDateInput
    (by decide) (by decide) rfl

/-- C4: `updateTaskStatus` validates the status argument before checking
Task existence: an invalid status answers 400 before the store is even
consulted, a valid status on a taskId resolving to no Task answers 404, and
on an existing Task a valid status answers 200, persists the new status as
the only changed field, and dispatches no notification. -/
theorem C4_updateTaskStatus_order (st : Store) (taskId status : String) :
    (isValidStatus status = false →
      (updateTaskStatus st taskId status).1.code = 400) ∧
    (findTaskById st taskId = none → isValidStatus status = true →
      (updateTaskStatus st taskId status).1.code = 404) ∧
    (∀ t, findTaskById st taskId = some t → isValidStatus status = true →
      (updateTaskStatus st taskId status).1.code = 200 ∧
      findTaskById (updateTaskStatus st taskId status).2.1 taskId =
        some { t with status := status } ∧
      (updateTaskStatus st taskId status).2.2 = []) := by
  refine ⟨?_, ?_, ?_⟩
  · intro h
    simp [updateTaskStatus, h]
  · intro hf hv
    simp [updateTaskStatus, hv, hf]
  · intro t hf hv
    have hupd := taskUpdate_found st taskId (statusOnlyBody status) t hf
    have happ : applyUpdate t (statusOnlyBody status) =
        { t with status := status } := rfl
    have hstore : (updateTaskStatus st taskId status).2.1 =
        (taskUpdate st taskId (statusOnlyBody status)).2 := by
      simp [updateTaskStatus, hv, hf, hupd]
    refine ⟨?_, ?_, ?_⟩
    · simp [updateTaskStatus, hv, hf, hupd]
    · rw [hstore, findTaskById_after_update st taskId (statusOnlyBody status)
        t hf, happ]
    · simp [updateTaskStatus, hv, hf, hupd]

theorem C4_updateTaskStatus_order_witness :
    isValidStatus "done" = false ∧
    isValidStatus "completed" = true ∧
    findTaskById storeOne "missing-id" = none ∧
    (updateTaskStatus storeOne "missing-id" "done").1.code = 400 ∧
    (updateTaskStatus storeOne "missing-id" "completed").1.code = 404 ∧
    ((updateTaskStatus storeOne "rec0" "completed").1.code = 200 ∧
      findTaskById (updateTaskStatus storeOne "rec0" "completed").2.1 "rec0" =
        some { taskReport with status := "completed" } ∧
      (updateTaskStatus storeOne "rec0" "completed").2.2 = []) := by
  refine ⟨by decide, by decide, rfl, ?_, ?_, ?_⟩
  · exact (C4_updateTaskStatus_order storeOne "missing-id" "done").1
      (by decide)
  · exact (C4_updateTaskStatus_order storeOne "missing-id" "completed").2.1
      rfl (by decide)
  · exact (C4_updateTaskStatus_order storeOne "rec0" "completed").2.2
      taskReport rfl (by decide)

/-- C5: when the referenced Project exists, the status is one of the two
recognized values, the store's descriptions are canonical lowercase and none
of them equals the input's description case-insensitively, and the dueDate
converts to a canonical instant, `createTask` answers 201 and appends a Task
whose description and status are the input lowercased and whose dueDate is
the canonical instant string. -/
theorem C5_createTask_success (dateToISO : String → Option String)
    (st : Store) (nt : NewTask) (iso : String)
    (_hp : nt.projectId ∈ st.projects)
    (hs : isValidStatus nt.status = true)
    (hcanon : ∀ t ∈ st.tasks, toLowerCase t.description = t.description)
    (huniq : ∀ t ∈ st.tasks,
      eqCaseInsensitive t.description nt.description = false)
    (hdate : dateToISO nt.dueDate = some iso) :
    (createTask dateToISO st nt).1.code = 201 ∧
    (createTask dateToISO st nt).2.tasks =
      st.tasks ++
        [{ xata_id := freshTaskId st.freshId
           description := toLowerCase nt.description
           status := toLowerCase nt.status
           dueDate := iso
           projectId := nt.projectId
           assignedToId := nt.assignedToId }] := by
  have hfind : findTaskByDescription st (toLowerCase nt.description) = none := by
    rw [findTaskByDescription, List.find?_eq_none]
    intro t ht
    have h1 := hcanon t ht
    have h2 := huniq t ht
    simp only [eqCaseInsensitive, beq_eq_false_iff_ne, ne_eq] at h2
    simp only [beq_iff_eq]
    intro he
    exact h2 (by rw [h1]; exact he)
  constructor
  · simp [createTask, hs, hfind, hdate]
  · simp [createTask, hs, hfind, hdate]

theorem C5_createTask_success_witness :
    freshInput.projectId ∈ storeOne.projects ∧
    isValidStatus freshInput.status = true ∧
    isoFixed freshInput.dueDate = some "2023-12-31T00:00:00.000Z" ∧
    ((createTask isoFixed storeOne freshInput).1.code = 201 ∧
      (createTask isoFixed storeOne freshInput).2.tasks =
        storeOne.tasks ++
          [{ xata_id := freshTaskId storeOne.freshId
             description := toLowerCase freshInput.description
             status := toLowerCase freshInput.status
             dueDate := "2023-12-31T00:00:00.000Z"
             projectId := freshInput.projectId
             assignedToId := freshInput.assignedToId }]) := by
  refine ⟨by decide, by decide, rfl, ?_⟩
  exact C5_createTask_success isoFixed storeOne freshInput
    "2023-12-31T00:00:00.000Z" (by decide) (by decide) (by decide)
    (by decide) rfl

/-- C6 counterexample: the claim quantifies over every NewTask whose
description duplicates a stored one case-insensitively, but the source
validates the status before the uniqueness check, so such an input with an
invalid status answers 400, not 409. -/
theorem C6_counterexample :
    taskReport ∈ storeOne.tasks ∧
    eqCaseInsensitive taskReport.description dupBadStatusInput.description =
      true ∧
    (createTask isoFixed storeOne dupBadStatusInput).1.code = 400 ∧
    ¬(createTask isoFixed storeOne dupBadStatusInput).1.code = 409 ∧
    (createTask isoFixed storeOne dupBadStatusInput).2 = storeOne := by
  refine ⟨by decide, by decide, rfl, by decide, rfl⟩

/-- C6 amended: for every NewTask whose status passes validation and whose
description equals, case-insensitively, the description of an
already-persisted Task (descriptions stored in their canonical lowercase
form), `createTask` answers 409 and leaves the store unchanged, creating
nothing. -/
theorem C6_duplicate_description_409 (dateToISO : String → Option String)
    (st : Store) (nt : NewTask) (t : Task)
    (hs : isValidStatus nt.status = true)
    (hcanon : ∀ u ∈ st.tasks, toLowerCase u.description = u.description)
    (ht : t ∈ st.tasks)
    (hdup : eqCaseInsensitive t.description nt.description = true) :
    (createTask dateToISO st nt).1.code = 409 ∧
    (createTask dateToISO st nt).2 = st := by
  have hbeq : (t.description == toLowerCase nt.description) = true := by
    simp only [eqCaseInsensitive, beq_iff_eq] at hdup ⊢
    rw [← hcanon t ht]
    exact hdup
  have hsome : (st.tasks.find?
      (fun u => u.description == toLowerCase nt.description)).isSome := by
    rw [List.find?_isSome]
    exact ⟨t, ht, hbeq⟩
  obtain ⟨u, hu⟩ := Option.isSome_iff_exists.mp hsome
  have hfind : findTaskByDescription st (toLowerCase nt.description) =
      some u := hu
  constructor
  · simp [createTask, hs, hfind]
  · simp [createTask, hs, hfind]

theorem C6_duplicate_description_409_witness :
    isValidStatus dupValidInput.status = true ∧
    taskReport ∈ storeOne.tasks ∧
    eqCaseInsensitive taskReport.description dupValidInput.description =
      true ∧
    ((createTask isoFixed storeOne dupValidInput).1.code = 409 ∧
      (createTask isoFixed storeOne dupValidInput).2 = storeOne) := by
  refine ⟨by decide, by decide, by decide, ?_⟩
  exact C6_duplicate_description_409 isoFixed storeOne dupValidInput
    taskReport (by decide) (by decide) (by decide) (by decide)

/-- C2 counterexample: the claim quantifies over every updateTask call on an
existing Task with non-null assignedToId, but a body carrying an invalid
status is rejected with 400 before the store update, and no notification is
dispatched. -/
theorem C2_counterexample :
    findTaskById storeAssigned "t1" = some taskAssigned ∧
    taskAssigned.assignedToId = some "u1" ∧
    (updateTask notifyOk storeAssigned "t1" bodyBadStatus).2.2 = [] ∧
    (updateTask notifyOk storeAssigned "t1" bodyBadStatus).1.code = 400 := by
  exact ⟨rfl, rfl, rfl, rfl⟩

/-- C2 amended: for every updateTask call on an existing Task whose
pre-update assignedToId is non-null and whose body passes the status guard
(status absent, empty, or valid), exactly one notification
`'<description>' updated!` (the updated record's description) is dispatched
to that user's id; if the dispatch reports a code other than 201, that code
and message become the result of the whole call, while the Task mutation is
already committed in the store (no rollback). -/
theorem C2_update_dispatch_propagation (notify : Dispatcher) (st : Store)
    (taskId : String) (body : UpdateTask) (task : Task) (uid : String)
    (hfind : findTaskById st taskId = some task)
    (hassigned : task.assignedToId = some uid)
    (hguard : statusGuardFails body = false) :
    (updateTask notify st taskId body).2.2 =
      [(updatedMessage task body, uid)] ∧
    ((notify (updatedMessage task body) uid).code ≠ 201 →
      (updateTask notify st taskId body).1.code =
        (notify (updatedMessage task body) uid).code ∧
      (updateTask notify st taskId body).1.message =
        (notify (updatedMessage task body) uid).message) ∧
    findTaskById (updateTask notify st taskId body).2.1 taskId =
      some (applyUpdate task body) := by
  have hupd := taskUpdate_found st taskId body task hfind
  have hmain : updateTask notify st taskId body =
      (if (notify (updatedMessage task body) uid).code != 201 then
        { code := (notify (updatedMessage task body) uid).code
          message := (notify (updatedMessage task body) uid).message
          details := (notify (updatedMessage task body) uid).details }
      else
        { code := 200
          message := "Task updated successfully"
          details := Details.task (applyUpdate task body) },
       (taskUpdate st taskId body).2,
       [(updatedMessage task body, uid)]) := by
    simp [updateTask, hfind, hguard, hupd, hassigned, updatedMessage]
    split <;> rfl
  rw [hmain]
  refine ⟨rfl, ?_, ?_⟩
  · intro hne
    have hb : ((notify (updatedMessage task body) uid).code != 201) = true :=
      bne_iff_ne.mpr hne
    simp [hb]
  · exact findTaskById_after_update st taskId body task hfind

theorem C2_update_dispatch_propagation_witness :
    findTaskById storeAssigned "t1" = some taskAssigned ∧
    taskAssigned.assignedToId = some "u1" ∧
    statusGuardFails bodyMixed = false ∧
    ((updateTask notifyDown storeAssigned "t1" bodyMixed).2.2 =
        [(updatedMessage taskAssigned bodyMixed, "u1")] ∧
      ((notifyDown (updatedMessage taskAssigned bodyMixed) "u1").code ≠ 201 →
        (updateTask notifyDown storeAssigned "t1" bodyMixed).1.code =
          (notifyDown (updatedMessage taskAssigned bodyMixed) "u1").code ∧
        (updateTask notifyDown storeAssigned "t1" bodyMixed).1.message =
          (notifyDown (updatedMessage taskAssigned bodyMixed) "u1").message) ∧
      findTaskById
          (updateTask notifyDown storeAssigned "t1" bodyMixed).2.1 "t1" =
        some (applyUpdate taskAssigned bodyMixed)) := by
  refine ⟨rfl, rfl, rfl, ?_⟩
  exact C2_update_dispatch_propagation notifyDown storeAssigned "t1"
    bodyMixed taskAssigned "u1" rfl rfl rfl

/-- C3: for every deleteTaskFromProject call on an existing Task with
non-null assignedToId, exactly one notification `'<description>' deleted!`
is dispatched, after the record was removed from the store; a dispatch
result of 500 makes the whole envelope 500, while the record stays removed
whatever the dispatcher answers. -/
theorem C3_delete_dispatch_propagation (notify : Dispatcher) (st : Store)
    (taskId : String) (task : Task) (uid : String)
    (hfind : findTaskById st taskId = some task)
    (hassigned : task.assignedToId = some uid) :
    (deleteTaskFromProject notify st taskId).2.2 =
      [(deletedMessage task, uid)] ∧
    ((notify (deletedMessage task) uid).code = 500 →
      (deleteTaskFromProject notify st taskId).1.code = 500) ∧
    findTaskById (deleteTaskFromProject notify st taskId).2.1 taskId =
      none := by
  have hdel := taskDelete_found st taskId task hfind
  have hmain : deleteTaskFromProject notify st taskId =
      (if (notify (deletedMessage task) uid).code != 201 then
        { code := (notify (deletedMessage task) uid).code
          message := (notify (deletedMessage task) uid).message
          details := (notify (deletedMessage task) uid).details }
      else
        { code := 200
          message := "Task deleted successfully"
          details := Details.task task },
       (taskDelete st taskId).2, [(deletedMessage task, uid)]) := by
    simp [deleteTaskFromProject, hfind, hdel, hassigned, deletedMessage]
    split <;> rfl
  rw [hmain]
  refine ⟨rfl, ?_, ?_⟩
  · intro h5
    have hne : (notify (deletedMessage task) uid).code ≠ 201 := by
      rw [h5]
      decide
    have hb : ((notify (deletedMessage task) uid).code != 201) = true :=
      bne_iff_ne.mpr hne
    simp only [hb, if_true]
    exact h5
  · exact findTaskById_after_delete st taskId

theorem C3_delete_dispatch_propagation_witness :
    findTaskById storeAssigned "t1" = some taskAssigned ∧
    taskAssigned.assignedToId = some "u1" ∧
    ((deleteTaskFromProject notifyDown storeAssigned "t1").2.2 =
        [(deletedMessage taskAssigned, "u1")] ∧
      ((notifyDown (deletedMessage taskAssigned) "u1").code = 500 →
        (deleteTaskFromProject notifyDown storeAssigned "t1").1.code = 500) ∧
      findTaskById
          (deleteTaskFromProject notifyDown storeAssigned "t1").2.1 "t1" =
        none) := by
  refine ⟨rfl, rfl, ?_⟩
  exact C3_delete_dispatch_propagation notifyDown storeAssigned "t1"
    taskAssigned "u1" rfl rfl

/-- C10: `updateTask` and `patch` persist the body's fields verbatim: a
supplied description is stored without lowercasing and a supplied dueDate
without normalization, so a successful update can leave a non-lowercase
description in the store. -/
theorem C10_update_writes_verbatim (notify : Dispatcher) (st : Store)
    (taskId : String) (body : UpdateTask) (task : Task) (d dd : String)
    (hfind : findTaskById st taskId = some task)
    (hguard : statusGuardFails body = false)
    (hd : body.description = some d)
    (hdd : body.dueDate = some dd) :
    ((applyUpdate task body).description = d ∧
      (applyUpdate task body).dueDate = dd) ∧
    findTaskById (updateTask notify st taskId body).2.1 taskId =
      some (applyUpdate task body) ∧
    findTaskById (patch st taskId body).2 taskId =
      some (applyUpdate task body) := by
  have hupd := taskUpdate_found st taskId body task hfind
  refine ⟨⟨?_, ?_⟩, ?_, ?_⟩
  · simp [applyUpdate, hd]
  · simp [applyUpdate, hdd]
  · have hst : (updateTask notify st taskId body).2.1 =
        (taskUpdate st taskId body).2 := by
      cases ha : task.assignedToId with
      | none => simp [updateTask, hfind, hguard, hupd, ha]
      | some uid =>
          simp [updateTask, hfind, hguard, hupd, ha]
          split <;> rfl
    rw [hst]
    exact findTaskById_after_update st taskId body task hfind
  · have hst : (patch st taskId body).2 = (taskUpdate st taskId body).2 := by
      simp [patch, hfind, hupd]
    rw [hst]
    exact findTaskById_after_update st taskId body task hfind

theorem C10_update_writes_verbatim_witness :
    findTaskById storeAssigned "t1" = some taskAssigned ∧
    statusGuardFails bodyMixed = false ∧
    bodyMixed.description = some "Mixed CASE Description" ∧
    bodyMixed.dueDate = some "tomorrow" ∧
    (((applyUpdate taskAssigned bodyMixed).description =
        "Mixed CASE Description" ∧
      (applyUpdate taskAssigned bodyMixed).dueDate = "tomorrow") ∧
      findTaskById
          (updateTask notifyOk storeAssigned "t1" bodyMixed).2.1 "t1" =
        some (applyUpdate taskAssigned bodyMixed) ∧
      findTaskById (patch storeAssigned "t1" bodyMixed).2 "t1" =
        some (applyUpdate taskAssigned bodyMixed)) ∧
    ¬(applyUpdate taskAssigned bodyMixed).description =
        toLowerCase (applyUpdate taskAssigned bodyMixed).description := by
  refine ⟨rfl, rfl, rfl, rfl, ?_, by decide⟩
  exact C10_update_writes_verbatim notifyOk storeAssigned "t1" bodyMixed
    taskAssigned "Mixed CASE Description" "tomorrow" rfl rfl rfl rfl

end Tascade
